import Mathlib

/-!
Shallow embedding of the WeChat-Conversation-Analysis-Visualization frontend.

The repository contains two parallel implementations of the same screen:
`frontend/src/views/HomeView.vue` (Vue 2 + Element UI, embedded here in
namespace `V1`) and `frontend-v3/src/views/HomeView.vue` (Vue 3 + Element
Plus, namespace `V3`).  JavaScript values that may be `null`/`undefined` are
embedded as `Option`, JS string truthiness (`null`/`undefined`/`""` falsy)
as `optStrTruthy`, JS numbers occurring in the analysed expressions as `ℚ`,
and the notification side channel (`this.$message` / `ElMessage`) as a list
of `Msg` values returned alongside the new state.
-/

/-- A user-facing notification emitted through the message service
(`this.$message.success/error` in V1, `ElMessage.success/error` in V3). -/
inductive Msg where
  | success (text : String) : Msg
  | error (text : String) : Msg
deriving DecidableEq, Repr

/-- JS `String.prototype.endsWith`, as a computation on the character list
(the suffix test agrees with the byte-level one on these ASCII suffixes). -/
def strEndsWith (s suffix : String) : Bool :=
  suffix.data.isSuffixOf s.data

/-- JS truthiness of a nullable string: `null`/`undefined` and `""` are falsy. -/
def optStrTruthy : Option String → Bool
  | none => false
  | some s => !(s == "")

/-- JS `a || d` for a nullable string `a` and a string default `d`:
the default is taken when `a` is `null`/`undefined` or the empty string. -/
def jsOrDefault (a : Option String) (d : String) : String :=
  match a with
  | some s => if s == "" then d else s
  | none => d

/-- `response.data.time_analysis` as consumed by both templates. -/
structure TimeAnalysis where
  first_date : String
  last_date : String
  total_days : ℚ
  total_messages : ℚ
  monthly_chart : Option String
  hourly_chart : Option String
deriving DecidableEq, Repr

/-- `response.data.word_cloud` as consumed by both templates. -/
structure WordCloud where
  both : Option String
  sender : Option String
  receiver : Option String
  french : Option String
deriving DecidableEq, Repr

/-- `response.emoji_clouds` / `response.emoji_symbol_cloud` shape. -/
structure EmojiClouds where
  sender : Option String
  receiver : Option String
deriving DecidableEq, Repr

/-- `response.data` as consumed by both templates. -/
structure AnalysisData where
  time_analysis : TimeAnalysis
  calendar_heatmap : Option String
  word_cloud : WordCloud
deriving DecidableEq, Repr

/-- `response.sentiment` as consumed by both templates. -/
structure SentimentData where
  radar_chart : Option String
  summary : String
deriving DecidableEq, Repr

/-- The JSON body handed to `handleUploadSuccess` by the upload control. -/
structure UploadResponse where
  success : Bool
  data : Option AnalysisData
  sentiment : Option SentimentData
  emoji_clouds : Option EmojiClouds
  emoji_symbol_cloud : Option EmojiClouds
  report_url : Option String
  error : Option String
deriving DecidableEq, Repr

/-- The file object handed to `beforeUpload`: its MIME `type` and its `name`. -/
structure UploadFile where
  type : String
  name : String
deriving DecidableEq, Repr

/-- JS `a || b` where `a` and `b` are objects-or-null: every object is
truthy, so the fallback `b` is taken exactly when `a` is `null`/`undefined`. -/
def jsOrObj (a b : Option EmojiClouds) : Option EmojiClouds :=
  match a with
  | some x => some x
  | none => b

/-- JS number division as written in the daily-average template expression;
a zero divisor produces the non-finite `Infinity`/`NaN` value, embedded as
`none`. -/
def jsDiv (a b : ℚ) : Option ℚ :=
  if b = 0 then none else some (a / b)

/-- Truthiness of the `sender` path of a nullable emoji-cloud object. -/
def ecSenderTruthy : Option EmojiClouds → Bool
  | none => false
  | some ec => optStrTruthy ec.sender

/-- Truthiness of the `receiver` path of a nullable emoji-cloud object. -/
def ecReceiverTruthy : Option EmojiClouds → Bool
  | none => false
  | some ec => optStrTruthy ec.receiver

/-- `frontend/src/config.js`: `API_BASE_URL = process.env.VUE_APP_API_URL ||
'http://localhost:8082'`, as a function of the environment variable. -/
def API_BASE_URL (envVueAppApiUrl : Option String) : String :=
  jsOrDefault envVueAppApiUrl "http://localhost:8082"

/-- `frontend-v3/src/views/HomeView.vue` line 8:
`axios.create({ baseURL: 'http://localhost:8082' })`. -/
def v3HomeBaseURL : String := "http://localhost:8082"

/-- `frontend-v3/src/services/api.ts`:
`axios.create({ baseURL: 'http://localhost:8082/api', ... })`. -/
def apiServiceBaseURL : String := "http://localhost:8082/api"

namespace V1

/-- The transient component state of `frontend/src/views/HomeView.vue`
(`data()`): `loading`, `analysisResults`, `sentimentResults`,
`emojiCloudData`, `reportUrl`. -/
structure ViewState where
  loading : Bool
  analysisResults : Option AnalysisData
  sentimentResults : Option SentimentData
  emojiCloudData : Option EmojiClouds
  reportUrl : Option String
deriving DecidableEq, Repr

/-- The initial `data()` of the V1 view. -/
def initialState : ViewState :=
  { loading := false, analysisResults := none, sentimentResults := none
    emojiCloudData := none, reportUrl := none }

/-- `beforeUpload(file)` of the V1 view: returns whether the upload
proceeds, the new state, and the emitted notifications. -/
def beforeUpload (file : UploadFile) (s : ViewState) : Bool × ViewState × List Msg :=
  let isCSV := file.type == "text/csv" || strEndsWith file.name ".csv"
  if !isCSV then
    (false, s, [Msg.error "Only CSV files are allowed!"])
  else
    (true, { s with loading := true }, [])

/-- `handleUploadSuccess(response)` of the V1 view. -/
def handleUploadSuccess (response : UploadResponse) (s : ViewState) : ViewState × List Msg :=
  let s1 : ViewState := { s with loading := false }
  if response.success then
    ({ s1 with
        analysisResults := response.data
        sentimentResults := response.sentiment
        emojiCloudData := jsOrObj response.emoji_clouds response.emoji_symbol_cloud
        reportUrl := response.report_url },
      [Msg.success "Analysis completed!"])
  else
    (s1, [Msg.error ("Analysis failed: " ++ jsOrDefault response.error "Unknown error")])

/-- `handleUploadError(err)` of the V1 view (the textual error argument does
not influence the state or the shown message). -/
def handleUploadError (s : ViewState) : ViewState × List Msg :=
  ({ s with loading := false }, [Msg.error "Upload failed, please try again!"])

/-- `getImageUrl(path)` of the V1 view; the base URL
(`this.$http.defaults.baseURL`) is passed explicitly. -/
def getImageUrl (baseURL : String) (path : Option String) : String :=
  if !(optStrTruthy path) then ""
  else baseURL ++ "/" ++ path.getD ""

/-- `getWordCloudUrl(path)` of the V1 view. -/
def getWordCloudUrl (baseURL : String) (path : Option String) : String :=
  if !(optStrTruthy path) then ""
  else baseURL ++ "/" ++ path.getD ""

/-- `downloadReport()` of the V1 view: the first component is the URL opened
in a new tab via `window.open` (or `none` when no tab is opened). -/
def downloadReport (baseURL : String) (s : ViewState) : Option String × List Msg :=
  if optStrTruthy s.reportUrl then
    (some (baseURL ++ s.reportUrl.getD ""), [])
  else
    (none, [Msg.error "Report not available"])

/-- Template line 123: `v-if="emojiCloudData && (emojiCloudData.sender ||
emojiCloudData.receiver)"`. -/
def emojiSectionShown (s : ViewState) : Bool :=
  match s.emojiCloudData with
  | none => false
  | some ec => optStrTruthy ec.sender || optStrTruthy ec.receiver

/-- Template line 131: the sender pane, nested in the section, guarded by
`v-if="emojiCloudData.sender"`. -/
def emojiSenderPaneShown (s : ViewState) : Bool :=
  emojiSectionShown s &&
    (match s.emojiCloudData with
      | none => false
      | some ec => optStrTruthy ec.sender)

/-- Template line 136: the receiver pane, nested in the section, guarded by
`v-if="emojiCloudData.receiver"`. -/
def emojiReceiverPaneShown (s : ViewState) : Bool :=
  emojiSectionShown s &&
    (match s.emojiCloudData with
      | none => false
      | some ec => optStrTruthy ec.receiver)

/-- Template line 66: `analysisResults.time_analysis.total_messages /
analysisResults.time_analysis.total_days` (the value later formatted by
`.toFixed(2)`), with no guard on the divisor. -/
def dailyAverageDisplay (ta : TimeAnalysis) : Option ℚ :=
  jsDiv ta.total_messages ta.total_days

end V1

namespace V3

/-- The transient reactive state of `frontend-v3/src/views/HomeView.vue`:
the refs `loading`, `analysisResults`, `sentimentResults`, `emojiCloudData`,
`reportUrl`. -/
structure ViewState where
  loading : Bool
  analysisResults : Option AnalysisData
  sentimentResults : Option SentimentData
  emojiCloudData : Option EmojiClouds
  reportUrl : Option String
deriving DecidableEq, Repr

/-- The initial ref values of the V3 view. -/
def initialState : ViewState :=
  { loading := false, analysisResults := none, sentimentResults := none
    emojiCloudData := none, reportUrl := none }

/-- `beforeUpload(rawFile)` of the V3 view: on acceptance it sets `loading`
and resets all four result refs to `null` before returning `true`. -/
def beforeUpload (rawFile : UploadFile) (s : ViewState) : Bool × ViewState × List Msg :=
  let isCSV := rawFile.type == "text/csv" || strEndsWith rawFile.name ".csv"
  if !isCSV then
    (false, s, [Msg.error "Only CSV files are allowed!"])
  else
    (true,
      { loading := true, analysisResults := none, sentimentResults := none
        emojiCloudData := none, reportUrl := none },
      [])

/-- `handleUploadSuccess(response)` of the V3 view. -/
def handleUploadSuccess (response : UploadResponse) (s : ViewState) : ViewState × List Msg :=
  let s1 : ViewState := { s with loading := false }
  if response.success then
    ({ s1 with
        analysisResults := response.data
        sentimentResults := response.sentiment
        emojiCloudData := jsOrObj response.emoji_clouds response.emoji_symbol_cloud
        reportUrl := response.report_url },
      [Msg.success "Analysis completed!"])
  else
    (s1, [Msg.error ("Analysis failed: " ++ jsOrDefault response.error "Unknown error")])

/-- `handleUploadError(err)` of the V3 view. -/
def handleUploadError (s : ViewState) : ViewState × List Msg :=
  ({ s with loading := false }, [Msg.error "Upload failed, please try again!"])

/-- `getImageUrl(path)` of the V3 view; the base URL
(`apiClient.defaults.baseURL`) is passed explicitly. -/
def getImageUrl (baseURL : String) (path : Option String) : String :=
  if !(optStrTruthy path) then ""
  else baseURL ++ "/" ++ path.getD ""

/-- `getWordCloudUrl(path)` of the V3 view. -/
def getWordCloudUrl (baseURL : String) (path : Option String) : String :=
  if !(optStrTruthy path) then ""
  else baseURL ++ "/" ++ path.getD ""

/-- `downloadReport()` of the V3 view. -/
def downloadReport (baseURL : String) (s : ViewState) : Option String × List Msg :=
  if optStrTruthy s.reportUrl then
    (some (baseURL ++ s.reportUrl.getD ""), [])
  else
    (none, [Msg.error "Report not available"])

/-- Template line 174: `v-if="emojiCloudData && (emojiCloudData.sender ||
emojiCloudData.receiver)"`. -/
def emojiSectionShown (s : ViewState) : Bool :=
  match s.emojiCloudData with
  | none => false
  | some ec => optStrTruthy ec.sender || optStrTruthy ec.receiver

/-- Template line 179: the sender pane, nested in the section. -/
def emojiSenderPaneShown (s : ViewState) : Bool :=
  emojiSectionShown s &&
    (match s.emojiCloudData with
      | none => false
      | some ec => optStrTruthy ec.sender)

/-- Template line 183: the receiver pane, nested in the section. -/
def emojiReceiverPaneShown (s : ViewState) : Bool :=
  emojiSectionShown s &&
    (match s.emojiCloudData with
      | none => false
      | some ec => optStrTruthy ec.receiver)

/-- Template line 138: the daily-average expression, identical to V1. -/
def dailyAverageDisplay (ta : TimeAnalysis) : Option ℚ :=
  jsDiv ta.total_messages ta.total_days

end V3

/-- A sample `time_analysis` payload used in concrete witnesses. -/
def sampleTA : TimeAnalysis :=
  { first_date := "2024-01-01", last_date := "2024-01-03"
    total_days := 3, total_messages := 120
    monthly_chart := some "charts/monthly.png", hourly_chart := some "charts/hourly.png" }

/-- A sample `response.data` payload used in concrete witnesses. -/
def sampleData : AnalysisData :=
  { time_analysis := sampleTA
    calendar_heatmap := some "charts/calendar.png"
    word_cloud :=
      { both := some "wc/both.html", sender := some "wc/sender.html"
        receiver := some "wc/receiver.html", french := none } }

/-- A sample V1 state that already displays a previous result. -/
def sampleState1 : V1.ViewState :=
  { loading := false
    analysisResults := some sampleData
    sentimentResults := some { radar_chart := some "charts/radar.png", summary := "Mostly positive" }
    emojiCloudData := some { sender := some "ec/sender.html", receiver := none }
    reportUrl := some "/api/reports/report.pdf" }

/-- A CSV file accepted by `beforeUpload`. -/
def csvFile : UploadFile := { type := "text/csv", name := "chat.csv" }

/-- A V1 state whose `reportUrl` is non-null but empty. -/
def stateEmptyReport : V1.ViewState := { sampleState1 with reportUrl := some "" }

/-- A `success:false` response carrying no error text. -/
def failRespNoError : UploadResponse :=
  { success := false, data := none, sentiment := none, emoji_clouds := none
    emoji_symbol_cloud := none, report_url := none, error := none }

/-- A successful response carrying emoji data only in `emoji_symbol_cloud`. -/
def respSymbolCloudOnly : UploadResponse :=
  { success := true, data := some sampleData
    sentiment := some { radar_chart := some "charts/radar.png", summary := "ok" }
    emoji_clouds := none
    emoji_symbol_cloud := some { sender := some "ec/sender.html", receiver := none }
    report_url := some "/api/reports/report.pdf", error := none }

/-- A sample `time_analysis` payload whose `total_days` is zero. -/
def zeroDaysTA : TimeAnalysis := { sampleTA with total_days := 0 }

/-- C1: in both view implementations, `beforeUpload` rejects a file exactly
when its MIME type is not `text/csv` and its name does not end with `.csv`;
on rejection it returns `false` (aborting the upload, so no request is
issued) and emits the error notification "Only CSV files are allowed!". -/
theorem c1_csv_validation (f : UploadFile) (s1 : V1.ViewState) (s3 : V3.ViewState) :
    ((V1.beforeUpload f s1).1 = false ↔
      (f.type ≠ "text/csv" ∧ strEndsWith f.name ".csv" = false)) ∧
    ((V1.beforeUpload f s1).1 = false →
      (V1.beforeUpload f s1).2.2 = [Msg.error "Only CSV files are allowed!"]) ∧
    ((V3.beforeUpload f s3).1 = false ↔
      (f.type ≠ "text/csv" ∧ strEndsWith f.name ".csv" = false)) ∧
    ((V3.beforeUpload f s3).1 = false →
      (V3.beforeUpload f s3).2.2 = [Msg.error "Only CSV files are allowed!"]) := by
  simp only [V1.beforeUpload, V3.beforeUpload]
  cases ht : (f.type == "text/csv") <;> cases hn : strEndsWith f.name ".csv" <;>
    simp_all

/-- C1 witness: a concrete non-CSV file is rejected with the error message
in both implementations. -/
theorem c1_csv_validation_witness :
    (V1.beforeUpload { type := "text/plain", name := "notes.txt" } V1.initialState).2.2
        = [Msg.error "Only CSV files are allowed!"] ∧
    (V3.beforeUpload { type := "text/plain", name := "notes.txt" } V3.initialState).2.2
        = [Msg.error "Only CSV files are allowed!"] :=
  ⟨(c1_csv_validation { type := "text/plain", name := "notes.txt" } V1.initialState
      V3.initialState).2.1 (by decide),
    (c1_csv_validation { type := "text/plain", name := "notes.txt" } V1.initialState
      V3.initialState).2.2.2 (by decide)⟩

/-- C2 counterexample: in the legacy (V1) view, `beforeUpload` on an
accepted CSV file leaves the previously displayed results in place instead
of resetting them to null. -/
theorem c2_counterexample :
    (V1.beforeUpload csvFile sampleState1).1 = true ∧
    (V1.beforeUpload csvFile sampleState1).2.1.analysisResults = some sampleData ∧
    (V1.beforeUpload csvFile sampleState1).2.1.sentimentResults ≠ none ∧
    (V1.beforeUpload csvFile sampleState1).2.1.emojiCloudData ≠ none ∧
    (V1.beforeUpload csvFile sampleState1).2.1.reportUrl = some "/api/reports/report.pdf" := by
  decide

/-- C2 (amended): on an accepted CSV file, the V3 `beforeUpload` sets
`loading` and resets the four result refs to null, while the V1
`beforeUpload` only sets `loading` and leaves the result fields
unchanged. -/
theorem c2_accept_state (f : UploadFile) (s1 : V1.ViewState) (s3 : V3.ViewState)
    (h1 : (V1.beforeUpload f s1).1 = true) (_h3 : (V3.beforeUpload f s3).1 = true) :
    (V1.beforeUpload f s1).2.1 = { s1 with loading := true } ∧
    (V3.beforeUpload f s3).2.1 =
      { loading := true, analysisResults := none, sentimentResults := none
        emojiCloudData := none, reportUrl := none } := by
  simp only [V1.beforeUpload, V3.beforeUpload] at *
  cases hb : (f.type == "text/csv" || strEndsWith f.name ".csv") <;> simp_all

/-- C2 witness: the amended statement at a concrete accepted CSV file. -/
theorem c2_accept_state_witness :
    (V1.beforeUpload csvFile sampleState1).2.1 = { sampleState1 with loading := true } ∧
    (V3.beforeUpload csvFile V3.initialState).2.1 =
      { loading := true, analysisResults := none, sentimentResults := none
        emojiCloudData := none, reportUrl := none } :=
  c2_accept_state csvFile sampleState1 V3.initialState (by decide) (by decide)

/-- C3: in both implementations, `getImageUrl` and `getWordCloudUrl` return
`baseURL ++ "/" ++ path` for a truthy (non-empty) path and the empty string
for a falsy (null or empty) path. -/
theorem c3_asset_urls (baseURL p : String) (hp : p ≠ "") :
    V1.getImageUrl baseURL (some p) = baseURL ++ "/" ++ p ∧
    V1.getWordCloudUrl baseURL (some p) = baseURL ++ "/" ++ p ∧
    V3.getImageUrl baseURL (some p) = baseURL ++ "/" ++ p ∧
    V3.getWordCloudUrl baseURL (some p) = baseURL ++ "/" ++ p ∧
    V1.getImageUrl baseURL none = "" ∧ V1.getImageUrl baseURL (some "") = "" ∧
    V1.getWordCloudUrl baseURL none = "" ∧ V1.getWordCloudUrl baseURL (some "") = "" ∧
    V3.getImageUrl baseURL none = "" ∧ V3.getImageUrl baseURL (some "") = "" ∧
    V3.getWordCloudUrl baseURL none = "" ∧ V3.getWordCloudUrl baseURL (some "") = "" := by
  simp only [V1.getImageUrl, V1.getWordCloudUrl, V3.getImageUrl, V3.getWordCloudUrl]
  simp [optStrTruthy, hp]

/-- C3 witness: a concrete asset URL. -/
theorem c3_asset_urls_witness :
    V1.getImageUrl "http://localhost:8082" (some "charts/monthly.png")
      = "http://localhost:8082" ++ "/" ++ "charts/monthly.png" :=
  (c3_asset_urls "http://localhost:8082" "charts/monthly.png" (by decide)).1

/-- C4 counterexample: a non-null but empty `reportUrl` does not open
`baseURL ++ reportUrl` in a new tab; the code's truthiness check sends it
to the error branch instead. -/
theorem c4_counterexample :
    stateEmptyReport.reportUrl ≠ none ∧
    V1.downloadReport "http://localhost:8082" stateEmptyReport
      = (none, [Msg.error "Report not available"]) ∧
    (V1.downloadReport "http://localhost:8082" stateEmptyReport).1
      ≠ some ("http://localhost:8082" ++ "") := by
  decide

/-- C4 (amended): `downloadReport` opens `baseURL ++ reportUrl` (no
separator inserted) in a new tab exactly for truthy (non-null and
non-empty) `reportUrl`; for a null or empty `reportUrl` it opens no tab and
shows the "Report not available" error, in both implementations. -/
theorem c4_download_report (baseURL u : String) (s1 : V1.ViewState) (s3 : V3.ViewState)
    (hu : u ≠ "") :
    (s1.reportUrl = some u →
      V1.downloadReport baseURL s1 = (some (baseURL ++ u), [])) ∧
    (s1.reportUrl = none ∨ s1.reportUrl = some "" →
      V1.downloadReport baseURL s1 = (none, [Msg.error "Report not available"])) ∧
    (s3.reportUrl = some u →
      V3.downloadReport baseURL s3 = (some (baseURL ++ u), [])) ∧
    (s3.reportUrl = none ∨ s3.reportUrl = some "" →
      V3.downloadReport baseURL s3 = (none, [Msg.error "Report not available"])) := by
  simp only [V1.downloadReport, V3.downloadReport]
  refine ⟨?_, ?_, ?_, ?_⟩
  · intro h; simp [h, optStrTruthy, hu]
  · rintro (h | h) <;> simp [h, optStrTruthy]
  · intro h; simp [h, optStrTruthy, hu]
  · rintro (h | h) <;> simp [h, optStrTruthy]

/-- C4 witness: the amended statement at a concrete stored report path. -/
theorem c4_download_report_witness :
    V1.downloadReport "http://localhost:8082" sampleState1
      = (some ("http://localhost:8082" ++ "/api/reports/report.pdf"), []) :=
  (c4_download_report "http://localhost:8082" "/api/reports/report.pdf" sampleState1
    V3.initialState (by decide)).1 rfl

/-- C5 counterexample: a successful response whose `emoji_clouds` field is
absent (so both `emoji_clouds.sender` and `emoji_clouds.receiver` are
absent) still renders the emoji section, because `emoji_symbol_cloud` is
used as a fallback. -/
theorem c5_counterexample :
    respSymbolCloudOnly.emoji_clouds = none ∧
    V1.emojiSectionShown (V1.handleUploadSuccess respSymbolCloudOnly V1.initialState).1
      = true ∧
    V3.emojiSectionShown (V3.handleUploadSuccess respSymbolCloudOnly V3.initialState).1
      = true := by
  decide

/-- C5 (amended): after a successful response, with the stored emoji data
being `response.emoji_clouds || response.emoji_symbol_cloud`, the emoji
section is absent exactly when both its sender and receiver paths are
absent or falsy, and the sender/receiver panes are shown exactly for the
truthy sides, in both implementations. -/
theorem c5_emoji_section (r : UploadResponse) (s1 : V1.ViewState) (s3 : V3.ViewState)
    (h : r.success = true) :
    (V1.emojiSectionShown (V1.handleUploadSuccess r s1).1
      = (ecSenderTruthy (jsOrObj r.emoji_clouds r.emoji_symbol_cloud) ||
          ecReceiverTruthy (jsOrObj r.emoji_clouds r.emoji_symbol_cloud))) ∧
    (V1.emojiSenderPaneShown (V1.handleUploadSuccess r s1).1
      = ecSenderTruthy (jsOrObj r.emoji_clouds r.emoji_symbol_cloud)) ∧
    (V1.emojiReceiverPaneShown (V1.handleUploadSuccess r s1).1
      = ecReceiverTruthy (jsOrObj r.emoji_clouds r.emoji_symbol_cloud)) ∧
    (V3.emojiSectionShown (V3.handleUploadSuccess r s3).1
      = (ecSenderTruthy (jsOrObj r.emoji_clouds r.emoji_symbol_cloud) ||
          ecReceiverTruthy (jsOrObj r.emoji_clouds r.emoji_symbol_cloud))) ∧
    (V3.emojiSenderPaneShown (V3.handleUploadSuccess r s3).1
      = ecSenderTruthy (jsOrObj r.emoji_clouds r.emoji_symbol_cloud)) ∧
    (V3.emojiReceiverPaneShown (V3.handleUploadSuccess r s3).1
      = ecReceiverTruthy (jsOrObj r.emoji_clouds r.emoji_symbol_cloud)) := by
  simp only [V1.handleUploadSuccess, V3.handleUploadSuccess, V1.emojiSectionShown,
    V3.emojiSectionShown, V1.emojiSenderPaneShown, V3.emojiSenderPaneShown,
    V1.emojiReceiverPaneShown, V3.emojiReceiverPaneShown, h, if_true]
  cases hec : jsOrObj r.emoji_clouds r.emoji_symbol_cloud with
  | none => simp [ecSenderTruthy, ecReceiverTruthy]
  | some ec =>
      cases hs : optStrTruthy ec.sender <;> cases hr2 : optStrTruthy ec.receiver <;>
        simp_all [ecSenderTruthy, ecReceiverTruthy]

/-- C5 witness: the amended statement at the concrete fallback response. -/
theorem c5_emoji_section_witness :
    (V1.emojiSectionShown (V1.handleUploadSuccess respSymbolCloudOnly V1.initialState).1
      = (ecSenderTruthy (jsOrObj respSymbolCloudOnly.emoji_clouds
            respSymbolCloudOnly.emoji_symbol_cloud) ||
          ecReceiverTruthy (jsOrObj respSymbolCloudOnly.emoji_clouds
            respSymbolCloudOnly.emoji_symbol_cloud))) ∧
    (V1.emojiSenderPaneShown (V1.handleUploadSuccess respSymbolCloudOnly V1.initialState).1
      = ecSenderTruthy (jsOrObj respSymbolCloudOnly.emoji_clouds
          respSymbolCloudOnly.emoji_symbol_cloud)) ∧
    (V1.emojiReceiverPaneShown (V1.handleUploadSuccess respSymbolCloudOnly V1.initialState).1
      = ecReceiverTruthy (jsOrObj respSymbolCloudOnly.emoji_clouds
          respSymbolCloudOnly.emoji_symbol_cloud)) ∧
    (V3.emojiSectionShown (V3.handleUploadSuccess respSymbolCloudOnly V3.initialState).1
      = (ecSenderTruthy (jsOrObj respSymbolCloudOnly.emoji_clouds
            respSymbolCloudOnly.emoji_symbol_cloud) ||
          ecReceiverTruthy (jsOrObj respSymbolCloudOnly.emoji_clouds
            respSymbolCloudOnly.emoji_symbol_cloud))) ∧
    (V3.emojiSenderPaneShown (V3.handleUploadSuccess respSymbolCloudOnly V3.initialState).1
      = ecSenderTruthy (jsOrObj respSymbolCloudOnly.emoji_clouds
          respSymbolCloudOnly.emoji_symbol_cloud)) ∧
    (V3.emojiReceiverPaneShown (V3.handleUploadSuccess respSymbolCloudOnly V3.initialState).1
      = ecReceiverTruthy (jsOrObj respSymbolCloudOnly.emoji_clouds
          respSymbolCloudOnly.emoji_symbol_cloud)) :=
  c5_emoji_section respSymbolCloudOnly V1.initialState V3.initialState rfl

/-- C6: on a `success:false` response, both implementations emit exactly one
error notification whose text is built from the response's error field with
the fallback "Unknown error": when the error field is absent the message
ends with "Unknown error", and in every case the message ends with the
backend's error text or with "Unknown error". -/
theorem c6_failure_message (r : UploadResponse) (s1 : V1.ViewState) (s3 : V3.ViewState)
    (h : r.success = false) :
    ∃ m : String,
      (V1.handleUploadSuccess r s1).2 = [Msg.error m] ∧
      (V3.handleUploadSuccess r s3).2 = [Msg.error m] ∧
      m = "Analysis failed: " ++ jsOrDefault r.error "Unknown error" ∧
      (r.error = none → ∃ pre : String, m = pre ++ "Unknown error") ∧
      ((∃ e : String, r.error = some e ∧ ∃ pre : String, m = pre ++ e) ∨
        (∃ pre : String, m = pre ++ "Unknown error")) := by
  refine ⟨"Analysis failed: " ++ jsOrDefault r.error "Unknown error", ?_, ?_, rfl, ?_, ?_⟩
  · simp only [V1.handleUploadSuccess, h]; simp
  · simp only [V3.handleUploadSuccess, h]; simp
  · intro he; exact ⟨"Analysis failed: ", by simp [jsOrDefault, he]⟩
  · cases hr : r.error with
    | none => exact Or.inr ⟨"Analysis failed: ", by simp [jsOrDefault]⟩
    | some e =>
        by_cases he : e = ""
        · refine Or.inl ⟨e, rfl, "Analysis failed: " ++ jsOrDefault (some e) "Unknown error", ?_⟩
          subst he; simp
        · refine Or.inl ⟨e, rfl, "Analysis failed: ", ?_⟩
          simp [jsOrDefault, he]

/-- C6 witness: a concrete `success:false` response without an error field
produces the "Analysis failed: Unknown error" notification. -/
theorem c6_failure_message_witness :
    (V1.handleUploadSuccess failRespNoError sampleState1).2
      = [Msg.error "Analysis failed: Unknown error"] := by
  obtain ⟨m, h1, _, h3, _⟩ :=
    c6_failure_message failRespNoError sampleState1 V3.initialState rfl
  rw [h1, h3]; decide

/-- C7: in both implementations, an accepted upload leaves `loading = true`
after `beforeUpload`, and each response handler sets `loading = false` on
every response — `handleUploadSuccess` on any response including
`success:false`, and `handleUploadError` on transport failure. -/
theorem c7_loading_flag (f : UploadFile) (r : UploadResponse)
    (s1 : V1.ViewState) (s3 : V3.ViewState) :
    ((V1.beforeUpload f s1).1 = true → (V1.beforeUpload f s1).2.1.loading = true) ∧
    (V1.handleUploadSuccess r s1).1.loading = false ∧
    (V1.handleUploadError s1).1.loading = false ∧
    ((V3.beforeUpload f s3).1 = true → (V3.beforeUpload f s3).2.1.loading = true) ∧
    (V3.handleUploadSuccess r s3).1.loading = false ∧
    (V3.handleUploadError s3).1.loading = false := by
  simp only [V1.beforeUpload, V3.beforeUpload, V1.handleUploadSuccess,
    V3.handleUploadSuccess, V1.handleUploadError, V3.handleUploadError]
  cases hb : (f.type == "text/csv" || strEndsWith f.name ".csv") <;>
    cases hr : r.success <;> simp_all

/-- C7 witness: the loading transitions at a concrete CSV file and a
concrete failing response. -/
theorem c7_loading_flag_witness :
    (V1.beforeUpload csvFile sampleState1).2.1.loading = true ∧
    (V3.beforeUpload csvFile V3.initialState).2.1.loading = true :=
  ⟨(c7_loading_flag csvFile failRespNoError sampleState1 V3.initialState).1 (by decide),
    (c7_loading_flag csvFile failRespNoError sampleState1 V3.initialState).2.2.2.1 (by decide)⟩

/-- C8 counterexample: with the environment variable set, the legacy base
URL follows the environment, while the two V3 base URLs stay hardcoded and
even differ from each other — the application's base URL is not one single
environment-sourced setting. -/
theorem c8_counterexample :
    API_BASE_URL (some "https://backend.example.org") = "https://backend.example.org" ∧
    v3HomeBaseURL = "http://localhost:8082" ∧
    apiServiceBaseURL = "http://localhost:8082/api" ∧
    v3HomeBaseURL ≠ apiServiceBaseURL ∧
    v3HomeBaseURL ≠ API_BASE_URL (some "https://backend.example.org") := by
  decide

/-- C8 (amended): the legacy frontend's base URL is the single setting
`process.env.VUE_APP_API_URL || 'http://localhost:8082'`; the V3 frontend
instead uses hardcoded base URLs — 'http://localhost:8082' in its home view
and 'http://localhost:8082/api' in its api service — with no environment
sourcing. -/
theorem c8_base_url (u : String) (hu : u ≠ "") :
    API_BASE_URL (some u) = u ∧
    API_BASE_URL none = "http://localhost:8082" ∧
    API_BASE_URL (some "") = "http://localhost:8082" ∧
    v3HomeBaseURL = "http://localhost:8082" ∧
    apiServiceBaseURL = "http://localhost:8082/api" := by
  simp only [API_BASE_URL, jsOrDefault, v3HomeBaseURL, apiServiceBaseURL]
  simp [hu]

/-- C8 witness: the amended statement at a concrete environment value. -/
theorem c8_base_url_witness :
    API_BASE_URL (some "https://prod.example.org") = "https://prod.example.org" ∧
    API_BASE_URL none = "http://localhost:8082" ∧
    API_BASE_URL (some "") = "http://localhost:8082" ∧
    v3HomeBaseURL = "http://localhost:8082" ∧
    apiServiceBaseURL = "http://localhost:8082/api" :=
  c8_base_url "https://prod.example.org" (by decide)

/-- C9: on a `success:false` response, `handleUploadSuccess` leaves
`analysisResults`, `sentimentResults`, `emojiCloudData` and `reportUrl`
unchanged — the post-state is exactly the pre-state with `loading := false`
— and only emits the error notification, in both implementations. -/
theorem c9_failure_preserves_results (r : UploadResponse)
    (s1 : V1.ViewState) (s3 : V3.ViewState) (h : r.success = false) :
    (V1.handleUploadSuccess r s1).1 = { s1 with loading := false } ∧
    (V3.handleUploadSuccess r s3).1 = { s3 with loading := false } ∧
    (V1.handleUploadSuccess r s1).2
      = [Msg.error ("Analysis failed: " ++ jsOrDefault r.error "Unknown error")] ∧
    (V3.handleUploadSuccess r s3).2
      = [Msg.error ("Analysis failed: " ++ jsOrDefault r.error "Unknown error")] := by
  simp only [V1.handleUploadSuccess, V3.handleUploadSuccess, h]
  simp

/-- C9 witness: the preservation statement at a concrete failing response
over a state that displays a previous result. -/
theorem c9_failure_preserves_results_witness :
    (V1.handleUploadSuccess failRespNoError sampleState1).1
      = { sampleState1 with loading := false } ∧
    (V3.handleUploadSuccess failRespNoError V3.initialState).1
      = { V3.initialState with loading := false } ∧
    (V1.handleUploadSuccess failRespNoError sampleState1).2
      = [Msg.error ("Analysis failed: " ++ jsOrDefault failRespNoError.error "Unknown error")] ∧
    (V3.handleUploadSuccess failRespNoError V3.initialState).2
      = [Msg.error ("Analysis failed: " ++ jsOrDefault failRespNoError.error "Unknown error")] :=
  c9_failure_preserves_results failRespNoError sampleState1 V3.initialState rfl

/-- C10: the daily-average template expression divides `total_messages` by
`total_days` with no guard on the divisor: for `total_days ≠ 0` it is the
quotient, and for `total_days = 0` the division is still performed,
producing the non-finite JS value (embedded as `none`), in both
implementations. -/
theorem c10_daily_average (ta : TimeAnalysis) :
    (ta.total_days ≠ 0 →
      V1.dailyAverageDisplay ta = some (ta.total_messages / ta.total_days) ∧
      V3.dailyAverageDisplay ta = some (ta.total_messages / ta.total_days)) ∧
    (ta.total_days = 0 →
      V1.dailyAverageDisplay ta = none ∧ V3.dailyAverageDisplay ta = none) := by
  simp only [V1.dailyAverageDisplay, V3.dailyAverageDisplay, jsDiv]
  constructor
  · intro h; simp [h]
  · intro h; simp [h]

/-- C10 witness: the division at a concrete nonzero-days payload and at a
concrete zero-days payload. -/
theorem c10_daily_average_witness :
    (V1.dailyAverageDisplay sampleTA = some (sampleTA.total_messages / sampleTA.total_days) ∧
      V3.dailyAverageDisplay sampleTA = some (sampleTA.total_messages / sampleTA.total_days)) ∧
    (V1.dailyAverageDisplay zeroDaysTA = none ∧ V3.dailyAverageDisplay zeroDaysTA = none) :=
  ⟨(c10_daily_average sampleTA).1 (by decide), (c10_daily_average zeroDaysTA).2 rfl⟩
